import Mathlib

/-
Verification of the EcoScan AI service (src/api/main.py).

The Python source is shallowly embedded in Lean 4:
* Python floats are modelled as exact rationals (ℚ); `round(x, k)` is
  modelled as round-to-nearest with `Mathlib`'s `round` (the half-even
  tie rule of Python differs only at exact ties, which no statement
  below depends on); Python `int(x)` (truncation toward zero) is
  modelled by `pyInt`.
* Python dicts with a fixed key set become structures with `Option`
  fields; generic dicts become association lists with `List.lookup`.
* The async warm-up path is modelled as an explicit interleaving
  transition system over the shared `initialized` flag and the
  `initialization_lock` of `AdvancedWasteClassifier`.
-/

/-- Python `int()` on a rational: truncation toward zero. -/
def pyInt (q : ℚ) : ℤ := if 0 ≤ q then ⌊q⌋ else ⌈q⌉

/-- Python `round(x, 1)`: round to one decimal place. -/
def round1 (q : ℚ) : ℚ := (round (q * 10) : ℚ) / 10

/-- Python `round(x, 2)`: round to two decimal places. -/
def round2 (q : ℚ) : ℚ := (round (q * 100) : ℚ) / 100

/-- Charwise replacement, used for `str.replace` with one-character
patterns as in the source (`label.replace("_", " ")` etc.). -/
def replaceChar (s : String) (a b : Char) : String :=
  String.mk (s.data.map fun c => if c = a then b else c)

/-- Python `label.lower().replace(" ", "_")` from
`enrich_with_environmental_data`. -/
def normalizeLabel (s : String) : String :=
  replaceChar (String.mk (s.data.map Char.toLower)) ' ' '_'

/-- A raw detection as produced by `ensemble_predict`: the fields read by
the validation and enrichment stages. -/
structure RawDetection where
  label : String
  category : String
  confidence : ℚ
  bbox : List ℚ
  material_composition : List (String × ℚ)
deriving DecidableEq, Repr

/-- The keys of `AdvancedWasteClassifier.confidence_thresholds`
(src/api/main.py lines 194-199). -/
def confidence_threshold_keys : List String :=
  ["recycle", "compost", "landfill", "hazardous"]

/-- The per-detection threshold
`self.confidence_thresholds.get(category, 0.5)`: the dict of lines
194-199 rendered as a lookup function with the default 0.5. -/
def thresholdFor (category : String) : ℚ :=
  if category = "recycle" then 0.7
  else if category = "compost" then 0.8
  else if category = "landfill" then 0.6
  else if category = "hazardous" then 0.9
  else 0.5

/-- `AdvancedWasteClassifier.validate_detections_sync` (lines 416-432):
keep a detection when `confidence >= threshold`, appending survivors in
order to the accumulator list. -/
def validate_detections_sync (detections : List RawDetection) : List RawDetection :=
  detections.foldl
    (fun validated detection =>
      let threshold := thresholdFor detection.category
      if threshold ≤ detection.confidence then validated ++ [detection] else validated)
    []

/-- A client device descriptor: the keys read by `ModelOptimizer`. -/
structure DeviceInfo where
  memory : Option ℚ
  deviceMemory : Option ℚ
  cores : Option ℚ
  hardwareConcurrency : Option ℚ
  gpu : Option ℚ
  gpuTier : Option ℚ
deriving DecidableEq, Repr

/-- The empty dict `{}` (falsy in Python, like a missing descriptor). -/
def DeviceInfo.empty : DeviceInfo := ⟨none, none, none, none, none, none⟩

/-- `device_info.get("memory", device_info.get("deviceMemory", 4))`. -/
def effMemory (d : DeviceInfo) : ℚ := d.memory.getD (d.deviceMemory.getD 4)

/-- `device_info.get("cores", device_info.get("hardwareConcurrency", 4))`. -/
def effCores (d : DeviceInfo) : ℚ := d.cores.getD (d.hardwareConcurrency.getD 4)

/-- `device_info.get("gpu", device_info.get("gpuTier", 0))`. -/
def effGpu (d : DeviceInfo) : ℚ := d.gpu.getD (d.gpuTier.getD 0)

/-- `ModelOptimizer.classify_device` (lines 591-613). The leading test
models Python's `if not device_info` falsy check. -/
def classify_device (device_info : DeviceInfo) : String :=
  if device_info = DeviceInfo.empty then "mid_range"
  else
    let memory := effMemory device_info
    let cores := effCores device_info
    let gpu := effGpu device_info
    if memory ≤ 2 ∨ cores ≤ 2 then "low_end"
    else if 8 ≤ memory ∧ 8 ≤ cores ∧ 2 ≤ gpu then "high_end"
    else "mid_range"

/-- A processing configuration: one entry of `ModelOptimizer.device_profiles`. -/
structure Config where
  target_size : ℕ × ℕ
  use_gpu : Bool
  quantization : String
  optimize_memory : Bool
  batch_size : ℕ
  enhance_quality : Bool
  denoise : Bool
deriving DecidableEq, Repr

/-- The `low_end` profile (lines 521-529). -/
def low_end_profile : Config :=
  { target_size := (320, 320), use_gpu := false, quantization := "int8",
    optimize_memory := true, batch_size := 1, enhance_quality := false, denoise := false }

/-- The `mid_range` profile (lines 530-538). -/
def mid_range_profile : Config :=
  { target_size := (480, 480), use_gpu := true, quantization := "int8",
    optimize_memory := true, batch_size := 1, enhance_quality := true, denoise := true }

/-- The `high_end` profile (lines 539-547). -/
def high_end_profile : Config :=
  { target_size := (640, 640), use_gpu := true, quantization := "fp16",
    optimize_memory := false, batch_size := 1, enhance_quality := true, denoise := true }

/-- `self.device_profiles.get(device_class, self.device_profiles["mid_range"])`:
the profile dict of lines 520-548 rendered as a lookup function with the
mid-range default. -/
def device_profilesGet (device_class : String) : Config :=
  if device_class = "low_end" then low_end_profile
  else if device_class = "mid_range" then mid_range_profile
  else if device_class = "high_end" then high_end_profile
  else mid_range_profile

/-- The quality-preference override block of `optimize_for_device`
(lines 560-568): `fast` clamps the resolution with `min 320` and turns
enhancement and denoising off, `accurate` raises it with `max 640` and
turns both on, anything else leaves the profile untouched. -/
def adjust_for_quality (quality : String) (config : Config) : Config :=
  if quality = "fast" then
    { config with
      target_size := (min 320 config.target_size.1, min 320 config.target_size.2),
      enhance_quality := false, denoise := false, optimize_memory := true }
  else if quality = "accurate" then
    { config with
      target_size := (max 640 config.target_size.1, max 640 config.target_size.2),
      enhance_quality := true, denoise := true }
  else config

/-- The configuration produced by `optimize_for_device` for a device and
quality preference. -/
def optimized_config (device_info : DeviceInfo) (quality : String) : Config :=
  adjust_for_quality quality (device_profilesGet (classify_device device_info))

/-- The result of `ModelOptimizer.predict_performance`. -/
structure Perf where
  estimated_inference_time : ℚ
  estimated_memory_usage : ℚ
  estimated_accuracy : ℚ
  target_fps : ℤ
deriving DecidableEq, Repr

/-- `ModelOptimizer.predict_performance` (lines 615-657). -/
def predict_performance (config : Config) (device_info : DeviceInfo) : Perf :=
  let pixels : ℚ := (config.target_size.1 : ℚ) * (config.target_size.2 : ℚ)
  let memory := effMemory device_info
  let cores := effCores device_info
  let base_time : ℚ := 0.1
  let size_factor := pixels / (640 * 640)
  let device_factor := min 1 ((cores / 8) * (memory / 8))
  let inference_time := base_time * size_factor / max 0.2 device_factor
  let base_memory : ℚ := 200
  let memory_usage0 := base_memory * size_factor
  let memory_usage := if config.optimize_memory then memory_usage0 * 0.7 else memory_usage0
  let base_accuracy : ℚ := 0.85
  let accuracy_factor0 := size_factor * 0.1
  let accuracy_factor :=
    if config.enhance_quality && config.denoise then accuracy_factor0 + 0.05
    else accuracy_factor0
  let accuracy := min 0.98 (base_accuracy + accuracy_factor)
  { estimated_inference_time := round1 (inference_time * 1000),
    estimated_memory_usage := round1 memory_usage,
    estimated_accuracy := round2 accuracy,
    target_fps := max 1 (min 30 (pyInt (1000 / (inference_time * 1000)))) }

/-- `optimize_for_device` (lines 550-589): classify, pick the base
profile, apply the quality override, predict performance. The
`performance_metrics` argument is accepted and ignored as in the source. -/
def optimize_for_device (device_info : DeviceInfo)
    (_performance_metrics : List (String × ℚ)) (quality : String) : Config × Perf :=
  let config := optimized_config device_info quality
  (config, predict_performance config device_info)

/-- `app.state.performance_stats`: the two fields touched by
`update_performance_stats`. -/
structure PerformanceStats where
  total_requests : ℕ
  average_processing_time : ℚ
deriving DecidableEq, Repr

/-- `update_performance_stats` (lines 940-957): increment the request
count, then recompute the running mean with the post-increment count. -/
def update_performance_stats (stats : PerformanceStats) (processing_time : ℚ) :
    PerformanceStats :=
  let total := stats.total_requests + 1
  { total_requests := total,
    average_processing_time :=
      (stats.average_processing_time * ((total : ℚ) - 1) + processing_time) / (total : ℚ) }

/-- One entry of `app.state.model_cache`: a key and the `last_used`
timestamp read with `model_data.get("last_used", 0)`. -/
structure CachedModel where
  name : String
  last_used : Option ℚ
deriving DecidableEq, Repr

/-- The idle duration used by the sweep: `current_time - model_data.get("last_used", 0)`. -/
def idleTime (current_time : ℚ) (model_data : CachedModel) : ℚ :=
  current_time - model_data.last_used.getD 0

/-- The expired-name collection pass of `periodic_cleanup` (lines 153-157):
names of cached models idle for strictly more than 600 seconds. -/
def expired_models (current_time : ℚ) (cache : List CachedModel) : List String :=
  (cache.filter (fun m => decide (600 < idleTime current_time m))).map (fun m => m.name)

/-- The deletion pass of `periodic_cleanup` (lines 159-161): drop every
cache entry whose name was collected as expired. -/
def periodic_cleanup_sweep (current_time : ℚ) (cache : List CachedModel) :
    List CachedModel :=
  let expired := expired_models current_time cache
  cache.filter (fun m => decide (m.name ∉ expired))

/-- An environmental-impact fact: the keys appearing in the built-in
database and read by `generate_tips`. -/
structure EnvData where
  co2_footprint : Option ℚ
  recycling_rate : Option ℚ
  decomposition_time : Option String
  recycled_uses : Option (List String)
  energy_saved_recycling : Option ℚ
  methane_production : Option ℚ
  compost_time : Option String
  soil_improvement : Option String
deriving DecidableEq, Repr

/-- The empty dict returned by `self.environmental_database.get(label, {})`
when the label is absent. -/
def EnvData.empty : EnvData := ⟨none, none, none, none, none, none, none, none⟩

/-- The keys of the built-in fallback environmental database
(`load_environmental_database`, lines 219-250). -/
def environmental_database_keys : List String :=
  ["plastic_bottle", "aluminum_can", "food_waste", "paper", "glass_bottle"]

/-- `self.environmental_database.get(label, {})` over the built-in
fallback database (lines 219-250), rendered as a lookup function whose
default is the empty fact. -/
def environmental_databaseGet (label : String) : EnvData :=
  if label = "plastic_bottle" then
    { EnvData.empty with
      co2_footprint := some 2.3
      recycling_rate := some 0.29
      decomposition_time := some "450 years"
      recycled_uses := some ["clothing", "carpets", "park benches"] }
  else if label = "aluminum_can" then
    { EnvData.empty with
      co2_footprint := some 3.2
      recycling_rate := some 0.75
      decomposition_time := some "200-500 years"
      energy_saved_recycling := some 0.95 }
  else if label = "food_waste" then
    { EnvData.empty with
      methane_production := some 1.1
      compost_time := some "3-6 months"
      soil_improvement := some "rich nutrients" }
  else if label = "paper" then
    { EnvData.empty with
      co2_footprint := some 0.8
      recycling_rate := some 0.65
      decomposition_time := some "2-6 weeks"
      recycled_uses := some ["paper products", "cardboard"] }
  else if label = "glass_bottle" then
    { EnvData.empty with
      co2_footprint := some 0.5
      recycling_rate := some 0.33
      decomposition_time := some "1 million years"
      recycled_uses := some ["glass containers", "fiberglass"] }
  else EnvData.empty

/-- `generate_disposal_instructions` (lines 465-474): a category-keyed
instruction table with a generic fallback. -/
def generate_disposal_instructions (category label : String) : String :=
  let pretty := replaceChar label '_' ' '
  if category = "recycle" then "Place " ++ pretty ++ " in the recycling bin after rinsing."
  else if category = "compost" then "Place " ++ pretty ++ " in the compost bin."
  else if category = "landfill" then "Place " ++ pretty ++ " in the general waste bin."
  else if category = "hazardous" then
    "Take " ++ pretty ++ " to a hazardous waste collection point."
  else "Check local guidelines for disposing " ++ pretty

/-- `generate_tips` (lines 476-511), translated clause by clause; the
numeric percentage uses Python `int()` truncation via `pyInt`. -/
def generate_tips (category _label : String) (env_data : EnvData) : List String :=
  let tips : List String := []
  let tips :=
    if category = "recycle" then
      let tips := tips ++ ["Ensure item is clean and dry before recycling"]
      let tips :=
        match env_data.recycled_uses with
        | some uses =>
          tips ++ ["When recycled, this can become: " ++ String.intercalate ", " uses]
        | none => tips
      match env_data.energy_saved_recycling with
      | some f =>
        tips ++ ["Recycling saves " ++ toString (pyInt (f * 100)) ++
                 "% energy compared to manufacturing new"]
      | none => tips
    else if category = "compost" then
      let tips := tips ++ ["Compostable items help create nutrient-rich soil"]
      match env_data.compost_time with
      | some t => tips ++ ["Takes approximately " ++ t ++ " to decompose in compost"]
      | none => tips
    else if category = "landfill" then
      let tips :=
        match env_data.decomposition_time with
        | some t => tips ++ ["Takes " ++ t ++ " to decompose in landfill"]
        | none => tips
      tips ++ ["Consider alternatives that can be recycled or composted"]
    else if category = "hazardous" then
      tips ++ ["Never mix with regular trash or recycling",
               "Keep in original container if possible"]
    else tips
  match env_data.co2_footprint with
  | some c => tips ++ ["Produces approximately " ++ toString c ++ "kg CO2 equivalent"]
  | none => tips

/-- The response object built by `enrich_with_environmental_data`
(`DetectionResult`, lines 109-117); the random `uuid4` id is modelled as
the detection's position in the list. -/
structure DetectionResult where
  id : ℕ
  label : String
  category : String
  confidence : ℚ
  bbox : List ℚ
  instructions : String
  tips : List String
  environmental_impact : EnvData
deriving DecidableEq, Repr

/-- The loop body of `enrich_with_environmental_data` (lines 438-461) for
one detection. -/
def enrichOne (i : ℕ) (detection : RawDetection) : DetectionResult :=
  let label := normalizeLabel detection.label
  let category := detection.category
  let env_data := environmental_databaseGet label
  { id := i,
    label := detection.label,
    category := category,
    confidence := detection.confidence,
    bbox := detection.bbox,
    instructions := generate_disposal_instructions category label,
    tips := generate_tips category label env_data,
    environmental_impact := env_data }

/-- `enrich_with_environmental_data` (lines 434-463). -/
def enrich_with_environmental_data (detections : List RawDetection) :
    List DetectionResult :=
  detections.enum.map (fun p => enrichOne p.1 p.2)

/-- Program counter of one `warm_up` caller (lines 252-270): before the
fast-path flag check; blocked on `initialization_lock`; holding the lock
before the second flag check; running the initialization attempt; or
returned with the observed outcome. -/
inductive WarmPC where
  | start
  | waitLock
  | crit
  | attempt
  | done (ok : Bool)
deriving DecidableEq, Repr

/-- Shared state of `n` concurrent `warm_up` callers: the
`self.initialized` flag, the holder of `self.initialization_lock`, and
each caller's program counter. -/
structure WarmState (n : ℕ) where
  initialized : Bool
  lock : Option (Fin n)
  pcs : Fin n → WarmPC

/-- Atomic steps of the `warm_up` coroutine: the fast-path flag check,
acquiring the lock, the double-check under the lock, and completion of
the initialization attempt with outcome `ok` (the `except` branch
re-raises, so a failed attempt leaves the flag unset and releases the
lock). -/
inductive WarmAction (n : ℕ) where
  | checkFast (i : Fin n)
  | acquire (i : Fin n)
  | checkSlow (i : Fin n)
  | finish (i : Fin n) (ok : Bool)

/-- Interleaving semantics of `warm_up`: one atomic step of one caller;
an unrunnable action leaves the state unchanged. -/
def warmStep {n : ℕ} (s : WarmState n) (a : WarmAction n) : WarmState n :=
  match a with
  | .checkFast i =>
    if s.pcs i = .start then
      if s.initialized then { s with pcs := Function.update s.pcs i (.done true) }
      else { s with pcs := Function.update s.pcs i .waitLock }
    else s
  | .acquire i =>
    if s.pcs i = .waitLock ∧ s.lock = none then
      { s with lock := some i, pcs := Function.update s.pcs i .crit }
    else s
  | .checkSlow i =>
    if s.pcs i = .crit then
      if s.initialized then
        { s with lock := none, pcs := Function.update s.pcs i (.done true) }
      else { s with pcs := Function.update s.pcs i .attempt }
    else s
  | .finish i ok =>
    if s.pcs i = .attempt then
      { s with lock := none, initialized := ok, pcs := Function.update s.pcs i (.done ok) }
    else s

/-- The initial state: flag unset, lock free, every caller at the fast
check. -/
def warmInit (n : ℕ) : WarmState n := ⟨false, none, fun _ => .start⟩

/-- Run a schedule of caller steps from the initial state. -/
def warmRun (n : ℕ) (acts : List (WarmAction n)) : WarmState n :=
  acts.foldl warmStep (warmInit n)

/-- The warm-up invariant: any caller between lock acquisition and
release is the current lock holder, and no attempt runs while the
`initialized` flag is set. -/
def WarmInv {n : ℕ} (s : WarmState n) : Prop :=
  ∀ i : Fin n, (s.pcs i = .crit → s.lock = some i)
    ∧ (s.pcs i = .attempt → s.lock = some i ∧ s.initialized = false)

/-- The first mock detection of `ensemble_predict` (lines 380-387). -/
def samplePlasticBottle : RawDetection :=
  ⟨"Plastic Bottle", "recycle", 0.92, [100, 50, 200, 300],
   [("plastic", 0.95), ("metal", 0.05)]⟩

/-- A low-confidence compost detection (threshold 0.8, confidence 0.3). -/
def sampleAppleCore : RawDetection :=
  ⟨"Apple Core", "compost", 0.3, [300, 100, 450, 250], [("organic", 1)]⟩

/-- A detection with a label absent from the environmental catalog and a
category outside the four known ones. -/
def sampleMystery : RawDetection := ⟨"Mystery Object", "unknown", 0.9, [], []⟩

/-- A device with 2 GB of memory and 4 cores. -/
def deviceWeak : DeviceInfo := ⟨some 2, none, some 4, none, none, none⟩

/-- The same device with memory raised to 4 GB. -/
def deviceStrong : DeviceInfo := ⟨some 4, none, some 4, none, none, none⟩

/-- An environmental fact whose energy-saved fraction 0.956 makes
rounding and truncation differ (0.956 × 100 = 95.6). -/
def envEnergy956 : EnvData := { EnvData.empty with energy_saved_recycling := some (239/250) }

/-- A two-entry model cache: one handle last used at time 100, one at 800. -/
def sampleCache : List CachedModel := [⟨"yolov8n", some 100⟩, ⟨"waste_classifier", some 800⟩]

/-- A schedule of two warm-up callers where the first caller's attempt
fails and the waiting second caller then runs its own attempt, which
succeeds. -/
def warmTraceRetry : List (WarmAction 2) :=
  [.checkFast 0, .checkFast 1, .acquire 0, .checkSlow 0, .finish 0 false,
   .acquire 1, .checkSlow 1, .finish 1 true]

/-- A schedule driving caller 0 into the attempting step. -/
def warmTraceAtt : List (WarmAction 2) := [.checkFast 0, .acquire 0, .checkSlow 0]

/-- A schedule where caller 0 completes a successful attempt. -/
def warmTraceOk : List (WarmAction 2) :=
  [.checkFast 0, .acquire 0, .checkSlow 0, .finish 0 true]

/-- Folding the filter loop of `validate_detections_sync` from any
accumulator appends exactly the detections passing the predicate. -/
theorem foldl_append_filter {α : Type} (p : α → Prop) [DecidablePred p]
    (l acc : List α) :
    l.foldl (fun a x => if p x then a ++ [x] else a) acc
      = acc ++ l.filter (fun x => decide (p x)) := by
  induction l generalizing acc with
  | nil => simp
  | cons x xs ih =>
    by_cases h : p x <;>
      simp [List.foldl_cons, h, ih, List.filter_cons, List.append_assoc]

/-- `validate_detections_sync` is the stable filter by the per-category
threshold. -/
theorem validate_eq_filter (l : List RawDetection) :
    validate_detections_sync l
      = l.filter (fun d => decide (thresholdFor d.category ≤ d.confidence)) := by
  have h := foldl_append_filter
    (fun d : RawDetection => thresholdFor d.category ≤ d.confidence) l []
  simpa [validate_detections_sync] using h

/-- C2: the validate/filter stage keeps exactly the detections whose
confidence is at least the threshold of their category
(boundary-inclusive), uses 0.5 for a category outside the policy, and is
a stable filter: the output is the order-preserving sublist of survivors
with no other modification. -/
theorem validate_detections_sync_spec (detections : List RawDetection) :
    validate_detections_sync detections
      = detections.filter (fun d => decide (thresholdFor d.category ≤ d.confidence))
    ∧ (validate_detections_sync detections).Sublist detections
    ∧ (∀ d : RawDetection, d ∈ validate_detections_sync detections ↔
        d ∈ detections ∧ thresholdFor d.category ≤ d.confidence)
    ∧ (∀ c : String, c ∉ confidence_threshold_keys → thresholdFor c = 0.5) := by
  refine ⟨validate_eq_filter _, ?_, ?_, ?_⟩
  · rw [validate_eq_filter]
    exact List.filter_sublist _
  · intro d
    rw [validate_eq_filter, List.mem_filter]
    simp
  · intro c hc
    simp only [confidence_threshold_keys, List.mem_cons, List.not_mem_nil, or_false,
      not_or] at hc
    simp [thresholdFor, hc.1, hc.2.1, hc.2.2]

/-- C2 witness: a 0.92-confidence recycle detection survives next to a
0.3-confidence compost one, and an unknown category gets threshold 0.5. -/
theorem validate_detections_sync_spec_witness :
    samplePlasticBottle ∈ validate_detections_sync [samplePlasticBottle, sampleAppleCore]
    ∧ thresholdFor "metal" = 0.5 := by
  refine ⟨((validate_detections_sync_spec
      [samplePlasticBottle, sampleAppleCore]).2.2.1 samplePlasticBottle).mpr
      ⟨by simp, ?_⟩,
    (validate_detections_sync_spec []).2.2.2 "metal" (by decide)⟩
  simp only [samplePlasticBottle, thresholdFor, String.reduceEq, reduceIte]
  norm_num

/-- C3: device classification is low_end iff memory ≤ 2 or cores ≤ 2,
high_end iff not low_end and memory ≥ 8 and cores ≥ 8 and accelerator
tier ≥ 2, mid_range otherwise; missing fields default to memory 4,
cores 4, accelerator 0, and an entirely absent descriptor yields
mid_range. -/
theorem classify_device_spec (d : DeviceInfo) :
    (classify_device d = "low_end" ↔ (effMemory d ≤ 2 ∨ effCores d ≤ 2))
    ∧ (classify_device d = "high_end" ↔
        (¬(effMemory d ≤ 2 ∨ effCores d ≤ 2)
          ∧ 8 ≤ effMemory d ∧ 8 ≤ effCores d ∧ 2 ≤ effGpu d))
    ∧ (classify_device d = "mid_range" ↔
        (¬(effMemory d ≤ 2 ∨ effCores d ≤ 2)
          ∧ ¬(8 ≤ effMemory d ∧ 8 ≤ effCores d ∧ 2 ≤ effGpu d)))
    ∧ (d.memory = none → d.deviceMemory = none → effMemory d = 4)
    ∧ (d.cores = none → d.hardwareConcurrency = none → effCores d = 4)
    ∧ (d.gpu = none → d.gpuTier = none → effGpu d = 0)
    ∧ classify_device DeviceInfo.empty = "mid_range" := by
  refine ⟨?_, ?_, ?_, fun h1 h2 => by simp [effMemory, h1, h2],
    fun h1 h2 => by simp [effCores, h1, h2],
    fun h1 h2 => by simp [effGpu, h1, h2],
    by simp [classify_device]⟩ <;>
  · by_cases hd : d = DeviceInfo.empty
    · subst hd
      simp only [classify_device, if_pos rfl]
      have hm : effMemory DeviceInfo.empty = 4 := rfl
      have hc : effCores DeviceInfo.empty = 4 := rfl
      have hg : effGpu DeviceInfo.empty = 0 := rfl
      rw [hm, hc, hg]
      constructor <;> intro h
      all_goals first
        | (exfalso; revert h; decide)
        | rfl
        | norm_num
    · simp only [classify_device, if_neg hd]
      by_cases h1 : effMemory d ≤ 2 ∨ effCores d ≤ 2 <;>
        by_cases h2 : 8 ≤ effMemory d ∧ 8 ≤ effCores d ∧ 2 ≤ effGpu d <;>
        simp [h1, h2]

/-- C3 witness: a 2 GB / 4-core device is low_end, and the empty
descriptor defaults to memory 4. -/
theorem classify_device_spec_witness :
    classify_device deviceWeak = "low_end" ∧ effMemory DeviceInfo.empty = 4 := by
  refine ⟨(classify_device_spec deviceWeak).1.mpr (Or.inl ?_),
    (classify_device_spec DeviceInfo.empty).2.2.2.1 rfl rfl⟩
  simp only [effMemory, deviceWeak, Option.getD_some]
  norm_num

/-- C4: for every device, `fast` clamps the resolution to at most 320×320
and never above the tier's own resolution and disables enhancement and
denoising; `accurate` raises the resolution to at least 640×640 and
enables both; `balanced` returns the tier's base profile unchanged. -/
theorem adjust_for_quality_spec (d : DeviceInfo) :
    ((optimized_config d "fast").target_size.1 ≤ 320
      ∧ (optimized_config d "fast").target_size.2 ≤ 320
      ∧ (optimized_config d "fast").target_size.1
          ≤ (device_profilesGet (classify_device d)).target_size.1
      ∧ (optimized_config d "fast").target_size.2
          ≤ (device_profilesGet (classify_device d)).target_size.2
      ∧ (optimized_config d "fast").enhance_quality = false
      ∧ (optimized_config d "fast").denoise = false)
    ∧ (640 ≤ (optimized_config d "accurate").target_size.1
      ∧ 640 ≤ (optimized_config d "accurate").target_size.2
      ∧ (optimized_config d "accurate").enhance_quality = true
      ∧ (optimized_config d "accurate").denoise = true)
    ∧ optimized_config d "balanced" = device_profilesGet (classify_device d) := by
  unfold optimized_config adjust_for_quality
  simp only [String.reduceEq, reduceIte, if_pos rfl]
  exact ⟨⟨Nat.min_le_left _ _, Nat.min_le_left _ _, Nat.min_le_right _ _,
      Nat.min_le_right _ _, trivial, trivial⟩,
    ⟨Nat.le_max_left _ _, Nat.le_max_left _ _, trivial, trivial⟩, trivial⟩

/-- Folding the stats update from a state holding count `n > 0` and mean
`a` yields count `n + length` and the weighted mean. -/
theorem update_stats_run (ts : List ℚ) :
    ∀ (n : ℕ) (a : ℚ), n ≠ 0 →
    ts.foldl update_performance_stats ⟨n, a⟩
      = ⟨n + ts.length, ((n : ℚ) * a + ts.sum) / ((n : ℚ) + ts.length)⟩ := by
  induction ts with
  | nil =>
    intro n a hn
    have hq : (n : ℚ) ≠ 0 := Nat.cast_ne_zero.mpr hn
    simp only [List.foldl_nil, List.length_nil, Nat.add_zero, List.sum_nil, Nat.cast_zero,
      add_zero, PerformanceStats.mk.injEq]
    refine ⟨trivial, ?_⟩
    field_simp
  | cons t ts ih =>
    intro n a hn
    have hq : (n : ℚ) ≠ 0 := Nat.cast_ne_zero.mpr hn
    have hq1 : ((n : ℚ) + 1) ≠ 0 := by positivity
    have hstep : update_performance_stats ⟨n, a⟩ t
        = ⟨n + 1, ((n : ℚ) * a + t) / ((n : ℚ) + 1)⟩ := by
      simp only [update_performance_stats, PerformanceStats.mk.injEq]
      refine ⟨trivial, ?_⟩
      push_cast
      ring_nf
    rw [List.foldl_cons, hstep, ih (n + 1) _ (Nat.succ_ne_zero n)]
    simp only [PerformanceStats.mk.injEq, List.length_cons, List.sum_cons]
    refine ⟨by omega, ?_⟩
    rw [div_eq_div_iff (by push_cast; positivity) (by push_cast; positivity)]
    push_cast
    field_simp
    ring

/-- C7: each record step increments the request count by one and sets the
mean to `(old_avg * (n-1) + t) / n` with `n` the post-increment count, so
that recording `t1..tn` from the initial stats leaves count `n` and the
exact arithmetic mean. -/
theorem update_performance_stats_spec (ts : List ℚ) :
    (∀ (s : PerformanceStats) (t : ℚ),
      (update_performance_stats s t).total_requests = s.total_requests + 1
      ∧ (update_performance_stats s t).average_processing_time
          = (s.average_processing_time * ((s.total_requests + 1 : ℕ) - 1 : ℚ) + t)
              / ((s.total_requests + 1 : ℕ) : ℚ))
    ∧ (ts.foldl update_performance_stats ⟨0, 0⟩).total_requests = ts.length
    ∧ (ts.foldl update_performance_stats ⟨0, 0⟩).average_processing_time
        = ts.sum / (ts.length : ℚ) := by
  refine ⟨fun s t => ⟨rfl, rfl⟩, ?_⟩
  cases ts with
  | nil => simp
  | cons t ts =>
    have hstep : update_performance_stats ⟨0, 0⟩ t = ⟨1, t⟩ := by
      simp only [update_performance_stats]
      congr 1
      push_cast
      ring_nf
    rw [List.foldl_cons, hstep, update_stats_run ts 1 t one_ne_zero]
    constructor
    · simp [List.length_cons, Nat.add_comm]
    · simp only [List.sum_cons, List.length_cons]
      push_cast
      ring_nf

/-- With distinct cache keys, a name is collected as expired exactly when
its own entry is idle past the TTL. -/
theorem mem_expired_models (cache : List CachedModel)
    (hnd : (cache.map (fun m => m.name)).Nodup) (now : ℚ) (m : CachedModel)
    (hm : m ∈ cache) :
    m.name ∈ expired_models now cache ↔ 600 < idleTime now m := by
  constructor
  · intro h
    rcases List.mem_map.mp h with ⟨m', hm', hname⟩
    rcases List.mem_filter.mp hm' with ⟨hm'c, hp⟩
    have : m' = m := List.inj_on_of_nodup_map hnd hm'c hm hname
    subst this
    exact of_decide_eq_true hp
  · intro h
    exact List.mem_map.mpr ⟨m, List.mem_filter.mpr ⟨hm, decide_eq_true h⟩, rfl⟩

/-- C8: one sweep at time `now` removes exactly the handles idle strictly
longer than the 600-second TTL and keeps all others unmodified in order;
a handle last used at `T` survives a sweep at `T + 600 - 1` and is gone
after a sweep at any time strictly later than `T + 600`. -/
theorem periodic_cleanup_sweep_spec (cache : List CachedModel)
    (hnd : (cache.map (fun m => m.name)).Nodup) :
    (∀ now : ℚ, periodic_cleanup_sweep now cache
        = cache.filter (fun m => decide (idleTime now m ≤ 600)))
    ∧ (∀ now : ℚ, (periodic_cleanup_sweep now cache).Sublist cache)
    ∧ (∀ (m : CachedModel) (T : ℚ), m ∈ cache → m.last_used = some T →
        m ∈ periodic_cleanup_sweep (T + 600 - 1) cache)
    ∧ (∀ (m : CachedModel) (T now : ℚ), m ∈ cache → m.last_used = some T →
        T + 600 < now → m ∉ periodic_cleanup_sweep now cache) := by
  have hfilter : ∀ now : ℚ, periodic_cleanup_sweep now cache
      = cache.filter (fun m => decide (idleTime now m ≤ 600)) := by
    intro now
    refine List.filter_congr ?_
    intro m hm
    rcases Decidable.em (m.name ∈ expired_models now cache) with h | h
    · have h600 := (mem_expired_models cache hnd now m hm).mp h
      simp [h, not_le.mpr h600]
    · have h600 : ¬ 600 < idleTime now m :=
        fun hc => h ((mem_expired_models cache hnd now m hm).mpr hc)
      simp [h, not_lt.mp h600]
  refine ⟨hfilter, fun now => (hfilter now) ▸ List.filter_sublist _, ?_, ?_⟩
  · intro m T hm hT
    rw [hfilter]
    refine List.mem_filter.mpr ⟨hm, decide_eq_true ?_⟩
    simp only [idleTime, hT, Option.getD_some]
    linarith
  · intro m T now hm hT hnow
    rw [hfilter]
    intro hmem
    have := of_decide_eq_true (List.mem_filter.mp hmem).2
    simp only [idleTime, hT, Option.getD_some] at this
    linarith

/-- C8 witness: in a cache with handles last used at 100 and 800, the
first survives a sweep at time 699 and is gone after a sweep at 800. -/
theorem periodic_cleanup_sweep_spec_witness :
    (⟨"yolov8n", some 100⟩ : CachedModel) ∈ periodic_cleanup_sweep (100 + 600 - 1) sampleCache
    ∧ (⟨"yolov8n", some 100⟩ : CachedModel) ∉ periodic_cleanup_sweep 800 sampleCache := by
  have hnd : (sampleCache.map (fun m => m.name)).Nodup := by
    simp [sampleCache]
  exact ⟨(periodic_cleanup_sweep_spec sampleCache hnd).2.2.1 ⟨"yolov8n", some 100⟩ 100
      (by simp [sampleCache]) rfl,
    (periodic_cleanup_sweep_spec sampleCache hnd).2.2.2 ⟨"yolov8n", some 100⟩ 100 800
      (by simp [sampleCache]) rfl (by norm_num)⟩

/-- C10: a surviving detection whose normalized label has no catalog
entry is enriched without error with an empty impact mapping; a category
outside recycle/compost/landfill/hazardous gets the generic
follow-local-guidelines instruction; enrichment yields one result per
input detection. -/
theorem enrich_unknown_spec :
    (∀ (d : RawDetection) (i : ℕ), normalizeLabel d.label ∉ environmental_database_keys →
        (enrichOne i d).environmental_impact = EnvData.empty)
    ∧ (∀ category label : String,
        category ∉ (["recycle", "compost", "landfill", "hazardous"] : List String) →
        generate_disposal_instructions category label
          = "Check local guidelines for disposing " ++ replaceChar label '_' ' ')
    ∧ (∀ detections : List RawDetection,
        (enrich_with_environmental_data detections).length = detections.length) := by
  refine ⟨?_, ?_, ?_⟩
  · intro d i h
    simp only [environmental_database_keys, List.mem_cons, List.not_mem_nil, or_false,
      not_or] at h
    simp only [enrichOne, environmental_databaseGet, h.1, h.2.1, h.2.2.1, h.2.2.2.1,
      h.2.2.2.2, if_false, reduceIte]
  · intro category label h
    simp only [List.mem_cons, List.not_mem_nil, or_false, not_or] at h
    simp only [generate_disposal_instructions, h.1, h.2.1, h.2.2.1, h.2.2.2, if_false,
      reduceIte]
  · intro detections
    simp [enrich_with_environmental_data]

/-- C10 witness: the unknown detection label `Mystery Object` normalizes
to `mystery_object`, is enriched with the empty impact mapping, and its
unknown category gets the fallback instruction. -/
theorem enrich_unknown_spec_witness :
    (enrichOne 0 sampleMystery).environmental_impact = EnvData.empty
    ∧ generate_disposal_instructions "unknown" "mystery_object"
        = "Check local guidelines for disposing " ++ replaceChar "mystery_object" '_' ' ' :=
  ⟨enrich_unknown_spec.1 sampleMystery 0 (by decide),
   enrich_unknown_spec.2.1 "unknown" "mystery_object" (by decide)⟩

/-- C9 counterexample: for the energy-saved fraction 0.956 the claimed
round-to-nearest value is 96, but the emitted tip carries the truncated
value 95, so the tip with value round(f × 100) is not among the generated
tips. -/
theorem generate_tips_round_counterexample :
    round ((239/250 : ℚ) * 100) = 96
    ∧ ("Recycling saves " ++ toString (round ((239/250 : ℚ) * 100)) ++
        "% energy compared to manufacturing new")
        ∉ generate_tips "recycle" "aluminum_can" envEnergy956 := by
  have hround : round ((239/250 : ℚ) * 100) = 96 := by
    rw [round_eq]
    norm_num
  have hpy : pyInt ((239/250 : ℚ) * 100) = 95 := by
    rw [pyInt]
    norm_num
  refine ⟨hround, ?_⟩
  rw [hround]
  simp only [generate_tips, envEnergy956, EnvData.empty, hpy, String.reduceEq, reduceIte]
  decide

/-- C9 amended: for every recycle detection whose fact has an energy-saved
fraction `f`, the generated tips contain the percentage-saved tip whose
numeric value is `f × 100` truncated toward zero (Python `int()`), not
rounded to nearest. -/
theorem generate_tips_energy_saved (label : String) (env : EnvData) (f : ℚ)
    (h : env.energy_saved_recycling = some f) :
    ("Recycling saves " ++ toString (pyInt (f * 100)) ++
      "% energy compared to manufacturing new")
      ∈ generate_tips "recycle" label env := by
  cases hru : env.recycled_uses <;> cases hco : env.co2_footprint <;>
    simp [generate_tips, h, hru, hco]

/-- C9 witness: the amended tip is generated for the fraction 0.956. -/
theorem generate_tips_energy_saved_witness :
    ("Recycling saves " ++ toString (pyInt ((239/250 : ℚ) * 100)) ++
      "% energy compared to manufacturing new")
      ∈ generate_tips "recycle" "aluminum_can" envEnergy956 :=
  generate_tips_energy_saved "aluminum_can" envEnergy956 (239/250) rfl

/-- Round-to-nearest is monotone. -/
theorem round_q_mono {a b : ℚ} (h : a ≤ b) : round a ≤ round b := by
  rw [round_eq, round_eq]
  exact Int.floor_mono (by linarith)

/-- Rounding to one decimal place is monotone. -/
theorem round1_mono {a b : ℚ} (h : a ≤ b) : round1 a ≤ round1 b := by
  unfold round1
  exact (div_le_div_iff_of_pos_right (by norm_num)).mpr (Int.cast_le.mpr
    (round_q_mono (mul_le_mul_of_nonneg_right h (by norm_num))))

/-- Rounding to two decimal places is monotone. -/
theorem round2_mono {a b : ℚ} (h : a ≤ b) : round2 a ≤ round2 b := by
  unfold round2
  exact (div_le_div_iff_of_pos_right (by norm_num)).mpr (Int.cast_le.mpr
    (round_q_mono (mul_le_mul_of_nonneg_right h (by norm_num))))

/-- C6: for a fixed device, the three prediction outputs are monotone in
the profile's pixel count (other profile fields held equal), and the
estimated accuracy stays below 1. -/
theorem predict_performance_monotone (device : DeviceInfo) (c₁ c₂ : Config)
    (hopt : c₁.optimize_memory = c₂.optimize_memory)
    (henh : c₁.enhance_quality = c₂.enhance_quality)
    (hden : c₁.denoise = c₂.denoise)
    (hpix : c₁.target_size.1 * c₁.target_size.2 ≤ c₂.target_size.1 * c₂.target_size.2) :
    (predict_performance c₁ device).estimated_inference_time
        ≤ (predict_performance c₂ device).estimated_inference_time
    ∧ (predict_performance c₁ device).estimated_memory_usage
        ≤ (predict_performance c₂ device).estimated_memory_usage
    ∧ (predict_performance c₁ device).estimated_accuracy
        ≤ (predict_performance c₂ device).estimated_accuracy
    ∧ (predict_performance c₂ device).estimated_accuracy < 1 := by
  have hsf : ((c₁.target_size.1 : ℚ) * (c₁.target_size.2 : ℚ)) / (640 * 640)
      ≤ ((c₂.target_size.1 : ℚ) * (c₂.target_size.2 : ℚ)) / (640 * 640) := by
    have h : ((c₁.target_size.1 : ℚ) * (c₁.target_size.2 : ℚ))
        ≤ ((c₂.target_size.1 : ℚ) * (c₂.target_size.2 : ℚ)) := by
      exact_mod_cast hpix
    gcongr
  have hsf0 : (0:ℚ) ≤ ((c₁.target_size.1 : ℚ) * (c₁.target_size.2 : ℚ)) / (640 * 640) := by
    positivity
  simp only [predict_performance]
  have hdenpos : (0:ℚ) < max 0.2 (min 1 ((effCores device / 8) * (effMemory device / 8))) :=
    lt_of_lt_of_le (by norm_num) (le_max_left _ _)
  refine ⟨?_, ?_, ?_, ?_⟩
  · apply round1_mono
    gcongr
  · rw [hopt]
    cases c₂.optimize_memory <;> simp only [Bool.false_eq_true, if_false, if_true, reduceIte]
    · apply round1_mono
      gcongr
    · apply round1_mono
      gcongr
  · rw [henh, hden]
    apply round2_mono
    split_ifs <;> exact min_le_min (le_refl _) (by linarith [hsf])
  · have hcap : min (0.98:ℚ) (0.85 +
        (if c₂.enhance_quality && c₂.denoise then
          ((c₂.target_size.1 : ℚ) * (c₂.target_size.2 : ℚ)) / (640 * 640) * 0.1 + 0.05
        else ((c₂.target_size.1 : ℚ) * (c₂.target_size.2 : ℚ)) / (640 * 640) * 0.1)) ≤ 0.98 :=
      min_le_left _ _
    calc round2 _ ≤ round2 0.98 := round2_mono hcap
    _ < 1 := by
        rw [round2, round_eq]
        norm_num

/-- C6 witness: on the empty descriptor, shrinking the high-end profile
to 480×480 lowers none of the three estimates past the full-resolution
profile. -/
theorem predict_performance_monotone_witness :
    (predict_performance { high_end_profile with target_size := (480, 480) }
        DeviceInfo.empty).estimated_inference_time
      ≤ (predict_performance high_end_profile DeviceInfo.empty).estimated_inference_time
    ∧ (predict_performance high_end_profile DeviceInfo.empty).estimated_accuracy < 1 := by
  have h := predict_performance_monotone DeviceInfo.empty
    { high_end_profile with target_size := (480, 480) } high_end_profile
    rfl rfl rfl (by decide)
  exact ⟨h.1, h.2.2.2⟩

/-- C5 counterexample: raising memory 2 → 4 (cores and accelerator
unchanged, quality `balanced`) promotes the device from low_end to
mid_range; the resolution grows as the claim requires, but the predicted
inference latency grows from 125 ms to 225 ms, violating the claimed
latency monotonicity. -/
theorem optimize_monotone_counterexample :
    effMemory deviceWeak ≤ effMemory deviceStrong
    ∧ effCores deviceWeak ≤ effCores deviceStrong
    ∧ deviceWeak.gpu = deviceStrong.gpu
    ∧ deviceWeak.gpuTier = deviceStrong.gpuTier
    ∧ (optimized_config deviceWeak "balanced").target_size = (320, 320)
    ∧ (optimized_config deviceStrong "balanced").target_size = (480, 480)
    ∧ (predict_performance (optimized_config deviceWeak "balanced")
        deviceWeak).estimated_inference_time = 125
    ∧ (predict_performance (optimized_config deviceStrong "balanced")
        deviceStrong).estimated_inference_time = 225
    ∧ ¬ ((predict_performance (optimized_config deviceStrong "balanced")
          deviceStrong).estimated_inference_time
        ≤ (predict_performance (optimized_config deviceWeak "balanced")
          deviceWeak).estimated_inference_time) := by
  have hclw : classify_device deviceWeak = "low_end" := by
    have hne : ¬ (deviceWeak = DeviceInfo.empty) := by
      simp [deviceWeak, DeviceInfo.empty]
    rw [classify_device, if_neg hne]
    norm_num [effMemory, effCores, deviceWeak]
  have hcls : classify_device deviceStrong = "mid_range" := by
    have hne : ¬ (deviceStrong = DeviceInfo.empty) := by
      simp [deviceStrong, DeviceInfo.empty]
    rw [classify_device, if_neg hne]
    norm_num [effMemory, effCores, effGpu, deviceStrong]
  have hcfgw : optimized_config deviceWeak "balanced" = low_end_profile := by
    rw [optimized_config, hclw]
    simp [device_profilesGet, adjust_for_quality]
  have hcfgs : optimized_config deviceStrong "balanced" = mid_range_profile := by
    rw [optimized_config, hcls]
    simp [device_profilesGet, adjust_for_quality]
  have hpw : (predict_performance low_end_profile deviceWeak).estimated_inference_time
      = 125 := by
    simp only [predict_performance, low_end_profile, effMemory, effCores, deviceWeak,
      Option.getD_some]
    rw [round1, round_eq]
    norm_num
  have hps : (predict_performance mid_range_profile deviceStrong).estimated_inference_time
      = 225 := by
    simp only [predict_performance, mid_range_profile, effMemory, effCores, deviceStrong,
      Option.getD_some]
    rw [round1, round_eq]
    norm_num
  refine ⟨by norm_num [effMemory, deviceWeak, deviceStrong],
    by norm_num [effCores, deviceWeak, deviceStrong], rfl, rfl,
    by rw [hcfgw]; rfl, by rw [hcfgs]; rfl,
    by rw [hcfgw, hpw], by rw [hcfgs, hps], ?_⟩
  rw [hcfgw, hcfgs, hpw, hps]
  norm_num

/-- The quality override preserves componentwise resolution order. -/
theorem adjust_for_quality_mono (q : String) (b₁ b₂ : Config)
    (h1 : b₁.target_size.1 ≤ b₂.target_size.1)
    (h2 : b₁.target_size.2 ≤ b₂.target_size.2) :
    (adjust_for_quality q b₁).target_size.1 ≤ (adjust_for_quality q b₂).target_size.1
    ∧ (adjust_for_quality q b₁).target_size.2 ≤ (adjust_for_quality q b₂).target_size.2 := by
  unfold adjust_for_quality
  split_ifs
  · exact ⟨min_le_min (le_refl _) h1, min_le_min (le_refl _) h2⟩
  · exact ⟨max_le_max (le_refl _) h1, max_le_max (le_refl _) h2⟩
  · exact ⟨h1, h2⟩

/-- The base profile resolution is monotone under adding memory and cores
(same accelerator fields). -/
theorem base_profile_mono (m₁ c₁ m₂ c₂ : ℚ) (g gt : Option ℚ)
    (hm : m₁ ≤ m₂) (hc : c₁ ≤ c₂) :
    (device_profilesGet (classify_device ⟨some m₁, none, some c₁, none, g, gt⟩)).target_size.1
      ≤ (device_profilesGet
          (classify_device ⟨some m₂, none, some c₂, none, g, gt⟩)).target_size.1
    ∧ (device_profilesGet
          (classify_device ⟨some m₁, none, some c₁, none, g, gt⟩)).target_size.2
      ≤ (device_profilesGet
          (classify_device ⟨some m₂, none, some c₂, none, g, gt⟩)).target_size.2 := by
  have hne₁ : (⟨some m₁, none, some c₁, none, g, gt⟩ : DeviceInfo) ≠ DeviceInfo.empty := by
    simp [DeviceInfo.empty]
  have hne₂ : (⟨some m₂, none, some c₂, none, g, gt⟩ : DeviceInfo) ≠ DeviceInfo.empty := by
    simp [DeviceInfo.empty]
  rw [classify_device, if_neg hne₁, classify_device, if_neg hne₂]
  simp only [effMemory, effCores, effGpu, Option.getD_some]
  by_cases hA2 : m₂ ≤ 2 ∨ c₂ ≤ 2
  · have hA1 : m₁ ≤ 2 ∨ c₁ ≤ 2 := by
      rcases hA2 with h | h
      · exact Or.inl (le_trans hm h)
      · exact Or.inr (le_trans hc h)
    rw [if_pos hA1, if_pos hA2]
    exact ⟨le_refl _, le_refl _⟩
  · by_cases hA1 : m₁ ≤ 2 ∨ c₁ ≤ 2
    · rw [if_pos hA1, if_neg hA2]
      split_ifs <;> exact ⟨by decide, by decide⟩
    · by_cases hB1 : 8 ≤ m₁ ∧ 8 ≤ c₁ ∧ 2 ≤ g.getD (gt.getD 0)
      · have hB2 : 8 ≤ m₂ ∧ 8 ≤ c₂ ∧ 2 ≤ g.getD (gt.getD 0) :=
          ⟨le_trans hB1.1 hm, le_trans hB1.2.1 hc, hB1.2.2⟩
        rw [if_neg hA1, if_neg hA2, if_pos hB1, if_pos hB2]
        exact ⟨le_refl _, le_refl _⟩
      · rw [if_neg hA1, if_neg hA2, if_neg hB1]
        split_ifs <;> exact ⟨by decide, by decide⟩

/-- C5 amended: with more memory and cores (all else equal) the resulting
profile's resolution never shrinks, and the predicted latency never grows
when the two devices classify to the same tier; when the stronger device
is promoted to a higher tier the predicted latency may grow (see the
counterexample at memory 2 → 4, quality balanced, 125 ms → 225 ms). -/
theorem optimize_monotone_amended (m₁ c₁ m₂ c₂ : ℚ) (g gt : Option ℚ) (q : String)
    (hm0 : 0 ≤ m₁) (hc0 : 0 ≤ c₁) (hm : m₁ ≤ m₂) (hc : c₁ ≤ c₂) :
    ((optimized_config ⟨some m₁, none, some c₁, none, g, gt⟩ q).target_size.1
        ≤ (optimized_config ⟨some m₂, none, some c₂, none, g, gt⟩ q).target_size.1
      ∧ (optimized_config ⟨some m₁, none, some c₁, none, g, gt⟩ q).target_size.2
        ≤ (optimized_config ⟨some m₂, none, some c₂, none, g, gt⟩ q).target_size.2)
    ∧ (classify_device ⟨some m₁, none, some c₁, none, g, gt⟩
          = classify_device ⟨some m₂, none, some c₂, none, g, gt⟩ →
        (predict_performance (optimized_config ⟨some m₂, none, some c₂, none, g, gt⟩ q)
            ⟨some m₂, none, some c₂, none, g, gt⟩).estimated_inference_time
          ≤ (predict_performance (optimized_config ⟨some m₁, none, some c₁, none, g, gt⟩ q)
            ⟨some m₁, none, some c₁, none, g, gt⟩).estimated_inference_time) := by
  constructor
  · have hb := base_profile_mono m₁ c₁ m₂ c₂ g gt hm hc
    exact adjust_for_quality_mono q _ _ hb.1 hb.2
  · intro heq
    have hcfg : optimized_config ⟨some m₁, none, some c₁, none, g, gt⟩ q
        = optimized_config ⟨some m₂, none, some c₂, none, g, gt⟩ q := by
      rw [optimized_config, optimized_config, heq]
    rw [hcfg]
    simp only [predict_performance, effMemory, effCores, Option.getD_some]
    apply round1_mono
    have hsf0 : (0:ℚ) ≤
        ((optimized_config ⟨some m₂, none, some c₂, none, g, gt⟩ q).target_size.1 : ℚ)
          * ((optimized_config ⟨some m₂, none, some c₂, none, g, gt⟩ q).target_size.2 : ℚ)
          / (640 * 640) := by positivity
    have hdf : min (1:ℚ) ((c₁ / 8) * (m₁ / 8)) ≤ min 1 ((c₂ / 8) * (m₂ / 8)) := by
      refine min_le_min (le_refl _) ?_
      have h1 : c₁ / 8 ≤ c₂ / 8 := by linarith
      have h2 : m₁ / 8 ≤ m₂ / 8 := by linarith
      exact mul_le_mul h1 h2 (by linarith) (by linarith)
    have hmax : max (0.2:ℚ) (min 1 ((c₁ / 8) * (m₁ / 8)))
        ≤ max 0.2 (min 1 ((c₂ / 8) * (m₂ / 8))) := max_le_max (le_refl _) hdf
    have hpos : (0:ℚ) < max 0.2 (min 1 ((c₁ / 8) * (m₁ / 8))) :=
      lt_of_lt_of_le (by norm_num) (le_max_left _ _)
    refine mul_le_mul_of_nonneg_right ?_ (by norm_num)
    exact div_le_div_of_nonneg_left (by positivity) hpos hmax

/-- C5 amended witness: a 4 GB / 4-core and a 6 GB / 6-core device both
classify mid_range; resolution and predicted latency are then ordered as
the amended claim states. -/
theorem optimize_monotone_amended_witness :
    ((optimized_config ⟨some 4, none, some 4, none, none, none⟩ "balanced").target_size.1
      ≤ (optimized_config ⟨some 6, none, some 6, none, none, none⟩ "balanced").target_size.1)
    ∧ ((predict_performance
          (optimized_config ⟨some 6, none, some 6, none, none, none⟩ "balanced")
          ⟨some 6, none, some 6, none, none, none⟩).estimated_inference_time
      ≤ (predict_performance
          (optimized_config ⟨some 4, none, some 4, none, none, none⟩ "balanced")
          ⟨some 4, none, some 4, none, none, none⟩).estimated_inference_time) := by
  have h := optimize_monotone_amended 4 4 6 6 none none "balanced"
    (by norm_num) (by norm_num) (by norm_num) (by norm_num)
  refine ⟨h.1.1, h.2 ?_⟩
  have h4 : classify_device ⟨some 4, none, some 4, none, none, none⟩ = "mid_range" := by
    have hne : (⟨some 4, none, some 4, none, none, none⟩ : DeviceInfo)
        ≠ DeviceInfo.empty := by simp [DeviceInfo.empty]
    rw [classify_device, if_neg hne]
    norm_num [effMemory, effCores, effGpu]
  have h6 : classify_device ⟨some 6, none, some 6, none, none, none⟩ = "mid_range" := by
    have hne : (⟨some 6, none, some 6, none, none, none⟩ : DeviceInfo)
        ≠ DeviceInfo.empty := by simp [DeviceInfo.empty]
    rw [classify_device, if_neg hne]
    norm_num [effMemory, effCores, effGpu]
  rw [h4, h6]

/-- The initial state satisfies the warm-up invariant. -/
theorem warmInv_init (n : ℕ) : WarmInv (warmInit n) := by
  intro i
  constructor <;> intro h <;> simp [warmInit] at h

/-- One interleaved step preserves the invariant and never clears the
flag once set. -/
theorem warmInv_step {n : ℕ} (s : WarmState n) (a : WarmAction n) (hinv : WarmInv s) :
    WarmInv (warmStep s a) ∧ (s.initialized = true → (warmStep s a).initialized = true) := by
  cases a with
  | checkFast i =>
    by_cases h : s.pcs i = .start
    · by_cases hini : s.initialized = true
      · simp only [warmStep, if_pos h, if_pos hini]
        refine ⟨fun j => ⟨fun hj => ?_, fun hj => ?_⟩, fun hh => hh⟩
        · have hj' : Function.update s.pcs i (WarmPC.done true) j = .crit := hj
          rw [Function.update_apply] at hj'
          split_ifs at hj' with hji
          exact (hinv j).1 hj'
        · have hj' : Function.update s.pcs i (WarmPC.done true) j = .attempt := hj
          rw [Function.update_apply] at hj'
          split_ifs at hj' with hji
          exact (hinv j).2 hj'
      · simp only [warmStep, if_pos h, if_neg hini]
        refine ⟨fun j => ⟨fun hj => ?_, fun hj => ?_⟩, fun hh => hh⟩
        · have hj' : Function.update s.pcs i WarmPC.waitLock j = .crit := hj
          rw [Function.update_apply] at hj'
          split_ifs at hj' with hji
          exact (hinv j).1 hj'
        · have hj' : Function.update s.pcs i WarmPC.waitLock j = .attempt := hj
          rw [Function.update_apply] at hj'
          split_ifs at hj' with hji
          exact (hinv j).2 hj'
    · simp only [warmStep, if_neg h]
      exact ⟨hinv, fun hh => hh⟩
  | acquire i =>
    by_cases h : s.pcs i = .waitLock ∧ s.lock = none
    · simp only [warmStep, if_pos h]
      refine ⟨fun j => ⟨fun hj => ?_, fun hj => ?_⟩, fun hh => hh⟩
      · have hj' : Function.update s.pcs i WarmPC.crit j = .crit := hj
        rw [Function.update_apply] at hj'
        split_ifs at hj' with hji
        · show some i = some j
          rw [hji]
        · have hl := (hinv j).1 hj'
          rw [h.2] at hl
          exact absurd hl (by simp)
      · have hj' : Function.update s.pcs i WarmPC.crit j = .attempt := hj
        rw [Function.update_apply] at hj'
        split_ifs at hj' with hji
        have hl := ((hinv j).2 hj').1
        rw [h.2] at hl
        exact absurd hl (by simp)
    · simp only [warmStep, if_neg h]
      exact ⟨hinv, fun hh => hh⟩
  | checkSlow i =>
    by_cases h : s.pcs i = .crit
    · have hlock := (hinv i).1 h
      by_cases hini : s.initialized = true
      · simp only [warmStep, if_pos h, if_pos hini]
        refine ⟨fun j => ⟨fun hj => ?_, fun hj => ?_⟩, fun hh => hh⟩
        · have hj' : Function.update s.pcs i (WarmPC.done true) j = .crit := hj
          rw [Function.update_apply] at hj'
          split_ifs at hj' with hji
          have hl := (hinv j).1 hj'
          rw [hlock] at hl
          exact absurd (Option.some.inj hl).symm hji
        · have hj' : Function.update s.pcs i (WarmPC.done true) j = .attempt := hj
          rw [Function.update_apply] at hj'
          split_ifs at hj' with hji
          exact absurd ((hinv j).2 hj').2 (by simp [hini])
      · have hinif : s.initialized = false := by simpa using hini
        simp only [warmStep, if_pos h, if_neg hini]
        refine ⟨fun j => ⟨fun hj => ?_, fun hj => ?_⟩, fun hh => absurd hh hini⟩
        · have hj' : Function.update s.pcs i WarmPC.attempt j = .crit := hj
          rw [Function.update_apply] at hj'
          split_ifs at hj' with hji
          exact (hinv j).1 hj'
        · have hj' : Function.update s.pcs i WarmPC.attempt j = .attempt := hj
          rw [Function.update_apply] at hj'
          split_ifs at hj' with hji
          · refine ⟨?_, hinif⟩
            show s.lock = some j
            rw [hji]
            exact hlock
          · exact (hinv j).2 hj'
    · simp only [warmStep, if_neg h]
      exact ⟨hinv, fun hh => hh⟩
  | finish i ok =>
    by_cases h : s.pcs i = .attempt
    · have hatt := (hinv i).2 h
      simp only [warmStep, if_pos h]
      refine ⟨fun j => ⟨fun hj => ?_, fun hj => ?_⟩,
        fun hh => absurd hh (by simp [hatt.2])⟩
      · have hj' : Function.update s.pcs i (WarmPC.done ok) j = .crit := hj
        rw [Function.update_apply] at hj'
        split_ifs at hj' with hji
        have hl := (hinv j).1 hj'
        rw [hatt.1] at hl
        exact absurd (Option.some.inj hl).symm hji
      · have hj' : Function.update s.pcs i (WarmPC.done ok) j = .attempt := hj
        rw [Function.update_apply] at hj'
        split_ifs at hj' with hji
        have hl := ((hinv j).2 hj').1
        rw [hatt.1] at hl
        exact absurd (Option.some.inj hl).symm hji
    · simp only [warmStep, if_neg h]
      exact ⟨hinv, fun hh => hh⟩

/-- Any schedule preserves the invariant. -/
theorem warmInv_foldl {n : ℕ} (acts : List (WarmAction n)) :
    ∀ s : WarmState n, WarmInv s → WarmInv (acts.foldl warmStep s) := by
  induction acts with
  | nil => exact fun s hs => hs
  | cons a acts ih =>
    intro s hs
    exact ih _ (warmInv_step s a hs).1

/-- Once the flag is set, no further schedule clears it. -/
theorem warmInit_foldl_mono {n : ℕ} (acts : List (WarmAction n)) :
    ∀ s : WarmState n, WarmInv s → s.initialized = true →
      (acts.foldl warmStep s).initialized = true := by
  induction acts with
  | nil => exact fun s _ h => h
  | cons a acts ih =>
    intro s hs h
    exact ih _ (warmInv_step s a hs).1 ((warmInv_step s a hs).2 h)

/-- C1 amended: at most one initialization attempt is in flight at any
time (any two attempting callers coincide), and once an attempt succeeds
the readiness flag stays set forever; after a failed attempt the flag is
still unset, so a waiting caller starts a fresh attempt and callers may
observe different outcomes (see the counterexample). -/
theorem warm_up_single_flight (n : ℕ) (acts more : List (WarmAction n)) :
    (∀ i j : Fin n, (warmRun n acts).pcs i = .attempt →
      (warmRun n acts).pcs j = .attempt → i = j)
    ∧ ((warmRun n acts).initialized = true →
        (warmRun n (acts ++ more)).initialized = true) := by
  have hinv : WarmInv (warmRun n acts) := warmInv_foldl acts _ (warmInv_init n)
  constructor
  · intro i j hi hj
    have h1 := ((hinv i).2 hi).1
    have h2 := ((hinv j).2 hj).1
    rw [h1] at h2
    exact Option.some.inj h2
  · intro h
    rw [warmRun, List.foldl_append]
    exact warmInit_foldl_mono more _ hinv h

/-- C1 counterexample: in the schedule `warmTraceRetry` both callers
enter warm-up before any attempt completes, caller 0's attempt fails and
caller 0 observes failure, then waiting caller 1 runs a second attempt
and observes success — concurrent callers do not share one attempt's
outcome. -/
theorem warm_up_same_outcome_counterexample :
    ¬ (∀ (i j : Fin 2) (b c : Bool),
        (warmRun 2 warmTraceRetry).pcs i = .done b →
        (warmRun 2 warmTraceRetry).pcs j = .done c → b = c) := by
  intro hall
  have h01 := hall 0 1 false true (by decide) (by decide)
  exact Bool.false_ne_true h01

/-- C1 witness: applying the amended theorem at the attempting schedule
and at a successful schedule extended by a further step. -/
theorem warm_up_single_flight_witness :
    ((0 : Fin 2) = 0)
    ∧ (warmRun 2 (warmTraceOk ++ [WarmAction.checkFast 1])).initialized = true :=
  ⟨(warm_up_single_flight 2 warmTraceAtt []).1 0 0 (by decide) (by decide),
   (warm_up_single_flight 2 warmTraceOk [WarmAction.checkFast 1]).2 (by decide)⟩
